import Mathlib

/-!
Verification development for the paid-media-advisor pipeline.

The development shallowly embeds the three core components of the
repository:

* `segment_insight` — the keyword-based segment filter
  (src/tools/segment_insight_tool.py);
* `analyzeList` / `predictAndExplain` — the ROI prediction, explanation
  and budget-projection engine (src/tools/performance_analysis_tool.py),
  parameterised over the external gradient-boosted model;
* `graphInvoke` — the three-stage pipeline (src/graph/flow.py) and the
  strategy-text post-processing of the HTTP layer (src/main.py).

Modelling conventions: Python floats are modelled as exact rationals
(`ℚ`); the external XGBoost booster is an abstract record `Model` with a
per-row prediction function and a gain-importance table; `pd.read_json`
on the record-list serialisation produced by `to_json(orient="records")`
is modelled by the executable parser `parseRecords`, which fails
(`Except.error`) on malformed input exactly as `pd.read_json` raises;
string fields are modelled without JSON escape sequences (the dataset's
categorical values are plain words).
-/

namespace PaidMedia

/-- CampaignRecord: one row of the campaign dataset, with the seven
columns the pipeline serialises (src/main.py `SegmentRecord`). -/
structure CampaignRecord where
  business_unit : String
  channel : String
  region : String
  roi : ℚ
  clicks : ℤ
  cost_per_click : ℚ
  cpm : ℚ
deriving DecidableEq, Repr

/-- Lower-casing of a string, modelling Python's `str.lower` (the
query text and dataset values are ASCII). -/
def strLower (s : String) : String :=
  String.mk (s.toList.map Char.toLower)

/-- Substring test, modelling Python's `in` operator on strings. -/
def strContains (s pat : String) : Bool :=
  decide (pat.toList <:+: s.toList)

/-- Vocabulary for the `region` dimension (segment_insight_tool.py). -/
def regionKeywords : List String := ["north america", "europe", "asia"]

/-- Vocabulary for the `business_unit` dimension. -/
def businessUnitKeywords : List String :=
  ["gbs", "watson", "cloud", "security", "analytics"]

/-- Vocabulary for the `channel` dimension. -/
def channelKeywords : List String := ["display", "paid search", "paid social"]

/-- One categorical dimension: column accessor paired with its keyword
vocabulary, in the iteration order of the source's `keyword_map` dict. -/
def keyword_map : List ((CampaignRecord → String) × List String) :=
  [(CampaignRecord.region, regionKeywords),
   (CampaignRecord.business_unit, businessUnitKeywords),
   (CampaignRecord.channel, channelKeywords)]

/-- Sequential keyword narrowing for one dimension: for each vocabulary
keyword occurring in the (lower-cased) query, re-filter the current
working set to rows whose column value equals the keyword
case-insensitively — the inner loop of `segment_insight`. -/
def filterDim (get : CampaignRecord → String) (kws : List String)
    (q : String) (rows : List CampaignRecord) : List CampaignRecord :=
  kws.foldl
    (fun acc kw =>
      if strContains q kw then acc.filter (fun r => strLower (get r) == kw)
      else acc)
    rows

/-- Categorical narrowing across the three dimensions, in dict order. -/
def catFilter (q : String) (rows : List CampaignRecord) :
    List CampaignRecord :=
  keyword_map.foldl (fun acc dim => filterDim dim.1 dim.2 q acc) rows

/-- Filtered record list computed by `segment_insight`: lower-case the
query, narrow by categorical keywords, then apply the performance
predicates "low roi" (`roi < 0.2`) and "high cpc"
(`cost_per_click > 2.0`). -/
def segmentList (df : List CampaignRecord) (query : String) :
    List CampaignRecord :=
  let q := strLower query
  let f := catFilter q df
  let f := if strContains q "low roi" then
      f.filter (fun r => decide (r.roi < 1/5)) else f
  let f := if strContains q "high cpc" then
      f.filter (fun r => decide (2 < r.cost_per_click)) else f
  f

/-- Round-half-to-even of a rational to an integer, modelling Python's
built-in `round` tie-breaking rule. -/
def roundHalfEven (x : ℚ) : ℤ :=
  let n : ℤ := x.floor
  let frac : ℚ := x - n
  if frac < 1/2 then n
  else if 1/2 < frac then n + 1
  else if n % 2 = 0 then n else n + 1

/-- Python's `round(x, k)`: round to `k` decimal places, half to even. -/
def pyRound (x : ℚ) (k : ℕ) : ℚ :=
  (roundHalfEven (x * 10 ^ k) : ℚ) / 10 ^ k

/-- Arithmetic mean of a list of rationals (pandas `Series.mean`). -/
def listMean (l : List ℚ) : ℚ := l.sum / l.length

/-- Fractional digits of `fr < 100` (hundredths) as Python `str` shows
them after the decimal point: one digit when the hundredths digit is 0,
two digits (with leading zero) otherwise. -/
def fracDigits2 (fr : ℕ) : String :=
  if fr % 10 = 0 then toString (fr / 10)
  else toString (fr / 10) ++ toString (fr % 10)

/-- Decimal rendering of a rational that is a multiple of 1/100,
modelling Python's `str(float)` for values produced by `round(x, 2)`:
always at least one fractional digit (`2.0`, `2.5`, `2.37`). -/
def repr2 (x : ℚ) : String :=
  let sgn := if x < 0 then "-" else ""
  let m : ℤ := (|x| * 100).floor
  sgn ++ toString (m / 100) ++ "." ++ fracDigits2 (m % 100).toNat

/-- Fractional part of a float rendered with up to ten decimals and
trailing zeros stripped, keeping at least one digit. -/
def fracDigits10 (fp : ℕ) : String :=
  let ds := toString fp
  let padded := String.mk (List.replicate (10 - ds.length) '0') ++ ds
  let kept := (padded.toList.reverse.dropWhile (fun c => c = '0')).reverse
  if kept.isEmpty then "0" else String.mk kept

/-- Decimal rendering of a rational float column value as pandas
`to_json` emits it (always a decimal point, e.g. `2.5`, `1.0`). -/
def jsonNumber (x : ℚ) : String :=
  let sgn := if x < 0 then "-" else ""
  let m : ℤ := (|x| * 10 ^ 10).floor
  sgn ++ toString (m / 10 ^ 10) ++ "." ++ fracDigits10 ((m % 10 ^ 10)).toNat

/-- Serialized key/value pairs of one record: exactly the seven columns
selected by `segment_insight` before `to_json(orient="records")`, in
column order. -/
def recordFields (r : CampaignRecord) : List (String × String) :=
  [("business_unit", "\"" ++ r.business_unit ++ "\""),
   ("channel", "\"" ++ r.channel ++ "\""),
   ("region", "\"" ++ r.region ++ "\""),
   ("roi", jsonNumber r.roi),
   ("clicks", toString r.clicks),
   ("cost_per_click", jsonNumber r.cost_per_click),
   ("cpm", jsonNumber r.cpm)]

/-- JSON object for one record, as in `to_json(orient="records")`. -/
def jsonOfRecord (r : CampaignRecord) : String :=
  "\x7b" ++
    String.intercalate ","
      ((recordFields r).map (fun kv => "\"" ++ kv.1 ++ "\":" ++ kv.2)) ++
  "\x7d"

/-- JSON array of records, as in `to_json(orient="records")`. -/
def jsonOfRecords (rs : List CampaignRecord) : String :=
  "[" ++ String.intercalate "," (rs.map jsonOfRecord) ++ "]"

/-- Output of the `segment_insight` tool: the value stored under the
`"segment_insight"` key — the sentinel `"[]"` when the working set is
empty, otherwise the seven-column record-list JSON. -/
def segment_insight (df : List CampaignRecord) (query : String) : String :=
  let filtered := segmentList df query
  if filtered.isEmpty then "[]" else jsonOfRecords filtered

/-- Drop an expected literal from the front of the input; `none` on
mismatch. -/
def dropLit : List Char → List Char → Option (List Char)
  | [], s => some s
  | c :: cs, d :: ds => if c = d then dropLit cs ds else none
  | _ :: _, [] => none

/-- Parse a double-quoted string literal (no escape sequences, matching
the plain categorical values of the dataset). -/
def parseStringLit (s : List Char) : Option (String × List Char) :=
  match s with
  | '"' :: rest =>
    let content := rest.takeWhile (fun c => c ≠ '"')
    match rest.dropWhile (fun c => c ≠ '"') with
    | '"' :: rest2 => some (String.mk content, rest2)
    | _ => none
  | _ => none

/-- Numeric value of a digit list (most significant first). -/
def digitsVal (ds : List Char) : ℕ :=
  ds.foldl (fun a c => a * 10 + (c.toNat - '0'.toNat)) 0

/-- Parse a nonempty digit run as a natural number. -/
def parseNatLit (s : List Char) : Option (ℕ × List Char) :=
  let ds := s.takeWhile Char.isDigit
  if ds.isEmpty then none else some (digitsVal ds, s.dropWhile Char.isDigit)

/-- Parse a JSON number (optional sign, integer part, optional fraction)
as an exact rational. -/
def parseNumber (s : List Char) : Option (ℚ × List Char) :=
  let (neg, s1) := match s with
    | '-' :: rest => (true, rest)
    | _ => (false, s)
  match parseNatLit s1 with
  | none => none
  | some (ip, s2) =>
    let (v, s3) := match s2 with
      | '.' :: s2a =>
        match parseNatLit s2a with
        | some (fp, s2b) =>
          let n := (s2a.takeWhile Char.isDigit).length
          ((ip : ℚ) + (fp : ℚ) / 10 ^ n, s2b)
        | none => ((ip : ℚ), '.' :: s2a)
      | _ => ((ip : ℚ), s2)
    some (if neg then -v else v, s3)

/-- Parse a JSON integer (optional sign, digit run). -/
def parseIntLit (s : List Char) : Option (ℤ × List Char) :=
  match s with
  | '-' :: rest =>
    (parseNatLit rest).map (fun nv => (-(nv.1 : ℤ), nv.2))
  | _ => (parseNatLit s).map (fun nv => ((nv.1 : ℤ), nv.2))

/-- Parse an expected key literal followed by a string value. -/
def parseKeyStr (key : String) (s : List Char) :
    Option (String × List Char) :=
  (dropLit key.toList s).bind parseStringLit

/-- Parse an expected key literal followed by a number value. -/
def parseKeyNum (key : String) (s : List Char) :
    Option (ℚ × List Char) :=
  (dropLit key.toList s).bind parseNumber

/-- Parse an expected key literal followed by an integer value. -/
def parseKeyInt (key : String) (s : List Char) :
    Option (ℤ × List Char) :=
  (dropLit key.toList s).bind parseIntLit

/-- Parse the three categorical fields of a serialized record. -/
def parseStrFields (s : List Char) :
    Option (String × String × String × List Char) := do
  let (bu, s) ← parseKeyStr "\x7b\"business_unit\":" s
  let (ch, s) ← parseKeyStr ",\"channel\":" s
  let (rg, s) ← parseKeyStr ",\"region\":" s
  pure (bu, ch, rg, s)

/-- Parse the four numeric fields of a serialized record and the
closing brace. -/
def parseNumFields (s : List Char) :
    Option (ℚ × ℤ × ℚ × ℚ × List Char) := do
  let (roiV, s) ← parseKeyNum ",\"roi\":" s
  let (ck, s) ← parseKeyInt ",\"clicks\":" s
  let (cpc, s) ← parseKeyNum ",\"cost_per_click\":" s
  let (cpmV, s) ← parseKeyNum ",\"cpm\":" s
  let s ← dropLit "\x7d".toList s
  pure (roiV, ck, cpc, cpmV, s)

/-- Parse one serialized record object with the seven fixed keys. -/
def parseRecord (s : List Char) : Option (CampaignRecord × List Char) := do
  let (bu, ch, rg, s) ← parseStrFields s
  let (roiV, ck, cpc, cpmV, s) ← parseNumFields s
  pure (⟨bu, ch, rg, roiV, ck, cpc, cpmV⟩, s)

/-- Parse the remaining records after the first: either the closing
bracket at end of input, or a comma followed by another record.
`fuel` bounds the recursion by the input length. -/
def parseRecsLoop : ℕ → List Char → Option (List CampaignRecord)
  | 0, _ => none
  | fuel + 1, s =>
    match s with
    | ']' :: rest => if rest.isEmpty then some [] else none
    | ',' :: rest => do
      let (r, s1) ← parseRecord rest
      let rs ← parseRecsLoop fuel s1
      pure (r :: rs)
    | _ => none

/-- Model of `pd.read_json` on the record-list serialisation: succeeds
exactly on well-formed record arrays, and fails — as `pd.read_json`
raises `ValueError` — on anything else. -/
def parseRecords (s : String) : Except String (List CampaignRecord) :=
  let cs := s.toList
  let parsed : Option (List CampaignRecord) := do
    let cs1 ← dropLit "[".toList cs
    match cs1 with
    | ']' :: rest => if rest.isEmpty then some [] else none
    | _ => do
      let (r, cs2) ← parseRecord cs1
      let rs ← parseRecsLoop cs.length cs2
      pure (r :: rs)
  match parsed with
  | some rs => Except.ok rs
  | none => Except.error "ValueError: unparseable segment representation"

/-- Model: the external trained booster, exposing a per-row prediction
on a numeric feature vector and the gain-based feature-importance table
(`booster.predict` / `booster.get_score(importance_type="gain")`). -/
structure Model where
  predict : List ℚ → ℚ
  importanceGain : List (String × ℚ)

/-- PerformanceSummary: the `roi_summary` value produced by the
performance-analysis tool. -/
structure RoiSummary where
  high_performers : List String
  low_performers : List String
  average_roi : Option ℚ
  top_features : String
  projected_roi : Option ℚ
deriving DecidableEq, Repr

/-- Summary returned for an empty segment. -/
def emptySummary : RoiSummary := ⟨[], [], none, "", none⟩

/-- Numeric feature vector of one record: exactly the three columns
`clicks`, `cost_per_click`, `cpm`, in that order. -/
def featureRow (r : CampaignRecord) : List ℚ :=
  [(r.clicks : ℚ), r.cost_per_click, r.cpm]

/-- Performer label: `"{business_unit} | {channel} | {region} → ROI:
{roi rounded to 2 decimals}"` (`format_campaign` in the source). -/
def format_campaign (r : CampaignRecord) : String :=
  r.business_unit ++ " | " ++ r.channel ++ " | " ++ r.region ++
    " → ROI: " ++ repr2 (pyRound r.roi 2)

/-- Insert into a descending-by-score list after any equal scores,
giving the stable descending order of Python's
`sorted(..., key=lambda x: x[1], reverse=True)`. -/
def insertDesc (x : String × ℚ) : List (String × ℚ) → List (String × ℚ)
  | [] => [x]
  | y :: ys => if y.2 < x.2 then x :: y :: ys else y :: insertDesc x ys

/-- Stable descending sort by score. -/
def sortDescByScore (l : List (String × ℚ)) : List (String × ℚ) :=
  l.foldl (fun acc x => insertDesc x acc) []

/-- Feature-importance explanation: scores sorted descending and
rendered as `"feature (score rounded to 2 decimals)"`, comma-joined. -/
def topFeatures (m : Model) : String :=
  String.intercalate ", "
    ((sortDescByScore m.importanceGain).map
      (fun kv => kv.1 ++ " (" ++ repr2 (pyRound kv.2 2) ++ ")"))

/-- Is the character a digit or a comma (the class `[\d,]`)? -/
def isDigitComma (c : Char) : Bool := c.isDigit || c = ','

/-- Leftmost maximal run of digit/comma characters: group 1 of the
first match of `re.search(r"\$?([\d,]+)", query)`. -/
def firstDigitCommaRun : List Char → Option (List Char)
  | [] => none
  | c :: rest =>
    if isDigitComma c then some ((c :: rest).takeWhile isDigitComma)
    else firstDigitCommaRun rest

/-- Budget extraction: regex search for the first digit/comma run,
strip commas, parse as a number; `none` both when the regex has no
match and when `float("")` raises on a comma-only run. -/
def parseBudget (query : String) : Option ℚ :=
  match firstDigitCommaRun query.toList with
  | none => none
  | some run =>
    let digits := run.filter (fun c => c ≠ ',')
    if digits.isEmpty then none else some ((digitsVal digits : ℕ) : ℚ)

/-- Budget projection: estimate clicks from the budget and the segment's
average cost-per-click (constant 1000 when that average is not
positive), build one synthetic feature row, and predict its ROI. -/
def projectedRoi (m : Model) (query : String)
    (recs : List CampaignRecord) : Option ℚ :=
  match parseBudget query with
  | none => none
  | some budget =>
    let avg_cpc := listMean (recs.map (fun r => r.cost_per_click))
    let avg_cpm := listMean (recs.map (fun r => r.cpm))
    let estimated_clicks := if 0 < avg_cpc then budget / avg_cpc else 1000
    some (pyRound (m.predict [estimated_clicks, avg_cpc, avg_cpm]) 4)

/-- Core of `_predict_and_explain`, after the segment JSON has been
parsed into records: empty-segment short-circuit, per-record
predictions, average, performer partition, feature explanation and
optional budget projection. -/
def analyzeList (m : Model) (query : String)
    (recs : List CampaignRecord) : RoiSummary :=
  if recs.isEmpty then emptySummary
  else
    let predictions := recs.map (fun r => m.predict (featureRow r))
    let avg_roi := pyRound (listMean predictions) 4
    let high := recs.filter (fun r => decide (2 < r.roi))
    let low := recs.filter (fun r => decide (r.roi < 1))
    ⟨high.map format_campaign, low.map format_campaign,
      some avg_roi, topFeatures m, projectedRoi m query recs⟩

/-- Full `_predict_and_explain`: parse the segment JSON (propagating a
parse failure, as the source has no handler around `pd.read_json`) and
analyze the resulting records. -/
def predictAndExplain (m : Model) (query segment_json : String) :
    Except String RoiSummary :=
  (parseRecords segment_json).map (analyzeList m query)

/-- FlowState: state record threaded through the LangGraph pipeline
(src/graph/flow.py); a field is `none` until its stage has run. -/
structure FlowState where
  query : String
  segment_insight : Option String
  performance_analysis : Option RoiSummary
  strategy_generator : Option String
deriving DecidableEq, Repr

/-- Stage 1 (`segment_node_func`): run the segment tool on the state's
query and write the resulting JSON string. -/
def segmentNode (df : List CampaignRecord) (s : FlowState) : FlowState :=
  { s with segment_insight := some (segment_insight df s.query) }

/-- Stage 2 (`performance_node_func`): run the performance tool on the
query and the stage-1 segment string; a missing key or a tool error
propagates as `Except.error`. -/
def performanceNode (m : Model) (s : FlowState) :
    Except String FlowState :=
  match s.segment_insight with
  | none => Except.error "KeyError: segment_insight"
  | some segStr =>
    (predictAndExplain m s.query segStr).map
      (fun summ => { s with performance_analysis := some summ })

/-- Stage 3 (`strategy_node_func`): run the external strategy generator
on the query and the stage-2 summary. `generate_strategy` itself never
raises (its body is wrapped in try/except), so the generator is a total
function. -/
def strategyNode (gen : String → RoiSummary → String) (s : FlowState) :
    Except String FlowState :=
  match s.performance_analysis with
  | none => Except.error "KeyError: performance_analysis"
  | some p =>
    Except.ok { s with strategy_generator := some (gen s.query p) }

/-- Compiled pipeline (`graph_app.invoke`): the three nodes run
synchronously in the fixed order segment → performance → strategy, each
starting from the state the previous one returned. -/
def graphInvoke (df : List CampaignRecord) (m : Model)
    (gen : String → RoiSummary → String) (query : String) :
    Except String FlowState := do
  let s1 := segmentNode df ⟨query, none, none, none⟩
  let s2 ← performanceNode m s1
  strategyNode gen s2

/-- Quota-exhaustion fallback message (src/main.py). -/
def quotaFallback : String :=
  "⚠️ LLM token quota exhausted for this project. " ++
  "Returning segment & performance analysis. " ++
  "Please add quota or switch to a smaller model / lower " ++
  "max_new_tokens to enable strategy generation."

/-- Fallback message for an empty strategy text (src/main.py). -/
def noStrategyMessage : String :=
  "No strategy generated. Please refine your query."

/-- Does the generated text carry a quota/rate-limit indicator? The
source checks `"token_quota_reached" in text.lower()` and
`"status code: 403" in text` (the latter case-sensitively). -/
def hasQuotaIndicator (s : String) : Bool :=
  strContains (strLower s) "token_quota_reached" ||
    strContains s "status code: 403"

/-- Strategy-text post-processing of `recommend` (src/main.py step 4):
quota indicator → fixed fallback; empty → "no strategy generated"
message; otherwise the text is passed through unchanged. -/
def fixStrategy (s : String) : String :=
  if hasQuotaIndicator s then quotaFallback
  else if s = "" then noStrategyMessage
  else s

/-- Response core assembled by `recommend`: previously computed segment
and performance fields, plus the post-processed strategy text. -/
structure RecommendResponseCore where
  segment : List CampaignRecord
  performance : RoiSummary
  strategy : String
deriving DecidableEq, Repr

/-- Assembly of the response from the already-computed segment and
performance values and the raw generator text (src/main.py steps 4-6):
only the strategy text is post-processed. -/
def buildResponse (seg : List CampaignRecord) (perf : RoiSummary)
    (strategyText : String) : RecommendResponseCore :=
  ⟨seg, perf, fixStrategy strategyText⟩

end PaidMedia

deriving instance DecidableEq for Except

namespace PaidMedia

/-- Concrete campaign record used to instantiate the theorems:
a europe/display/gbs row with roi 3, 7 clicks, cost-per-click 1,
cpm 2. -/
def wRecord : CampaignRecord := ⟨"g", "d", "europe", 3, 7, 1, 2⟩

/-- Concrete low-roi campaign record (roi 0.1, cost-per-click 3). -/
def wRecordLow : CampaignRecord := ⟨"w", "p", "asia", 1/10, 50, 3, 4⟩

/-- Concrete model instance: predicted ROI is the first feature
(clicks); one gain entry. -/
def wModel : Model := ⟨fun v => v.headD 0, [("clicks", 5/2)]⟩

/-- Second concrete model instance, nowhere equal to `wModel`. -/
def wModel2 : Model := ⟨fun v => v.headD 0 + 1, []⟩

/-- Concrete strategy generator used to instantiate the pipeline. -/
def wGen : String → RoiSummary → String := fun _ _ => "t"

/-- Final pipeline state reached on the concrete one-record dataset
with query "europe". -/
def wSt : FlowState :=
  ⟨"europe", some (segment_insight [wRecord] "europe"),
    some (analyzeList wModel "europe" [wRecord]),
    some "t"⟩

end PaidMedia


set_option maxRecDepth 4000

attribute [local semireducible] Rat.mul Rat.add Rat.sub Rat.inv Rat.ofScientific

namespace PaidMedia

/-! Helper lemmas about the keyword-filter fold. -/

theorem filterDim_cons (get : CampaignRecord → String) (k : String)
    (ks : List String) (q : String) (rows : List CampaignRecord) :
    filterDim get (k :: ks) q rows =
      filterDim get ks q
        (if strContains q k then
          rows.filter (fun r => strLower (get r) == k)
         else rows) := rfl

theorem mem_of_mem_filterDim {get : CampaignRecord → String}
    {ks : List String} {q : String} {rows : List CampaignRecord}
    {r : CampaignRecord} (h : r ∈ filterDim get ks q rows) : r ∈ rows := by
  induction ks generalizing rows with
  | nil => exact h
  | cons k ks ih =>
    rw [filterDim_cons] at h
    have h2 := ih h
    by_cases hc : strContains q k = true
    · rw [if_pos hc] at h2
      exact List.mem_of_mem_filter h2
    · rw [if_neg hc] at h2
      exact h2

theorem filterDim_keyword_eq {get : CampaignRecord → String}
    {ks : List String} {q : String} {rows : List CampaignRecord}
    {r : CampaignRecord} (h : r ∈ filterDim get ks q rows) :
    ∀ kw ∈ ks, strContains q kw = true → strLower (get r) = kw := by
  induction ks generalizing rows with
  | nil => intro kw hkw; cases hkw
  | cons k ks ih =>
    intro kw hkw hq
    rw [filterDim_cons] at h
    rcases List.mem_cons.mp hkw with hk | hkw2
    · subst hk
      have hr := mem_of_mem_filterDim h
      rw [if_pos hq] at hr
      exact eq_of_beq (List.mem_filter.mp hr).2
    · exact ih h kw hkw2 hq

theorem filterDim_nil (get : CampaignRecord → String) (ks : List String)
    (q : String) : filterDim get ks q [] = [] := by
  induction ks with
  | nil => rfl
  | cons k ks ih =>
    rw [filterDim_cons]
    have h : (if strContains q k then
        List.filter (fun r => strLower (get r) == k) [] else []) = [] := by
      split <;> simp
    rw [h]
    exact ih

theorem filterDim_sublist (get : CampaignRecord → String) (ks : List String)
    (q : String) (rows : List CampaignRecord) :
    (filterDim get ks q rows).Sublist rows := by
  induction ks generalizing rows with
  | nil => exact List.Sublist.refl rows
  | cons k ks ih =>
    rw [filterDim_cons]
    refine (ih _).trans ?_
    split
    · exact List.filter_sublist rows
    · exact List.Sublist.refl rows

theorem filterDim_id {ks : List String} {q : String}
    (get : CampaignRecord → String) (rows : List CampaignRecord)
    (h : ∀ kw ∈ ks, strContains q kw = false) :
    filterDim get ks q rows = rows := by
  induction ks with
  | nil => rfl
  | cons k ks ih =>
    rw [filterDim_cons, if_neg (by simp [h k (List.mem_cons_self k ks)])]
    exact ih (fun kw hkw => h kw (List.mem_cons_of_mem k hkw))

theorem catFilter_eq (q : String) (rows : List CampaignRecord) :
    catFilter q rows =
      filterDim CampaignRecord.channel channelKeywords q
        (filterDim CampaignRecord.business_unit businessUnitKeywords q
          (filterDim CampaignRecord.region regionKeywords q rows)) := rfl

theorem segmentList_eq_nil_of_catFilter_nil (df : List CampaignRecord)
    (query : String) (h : catFilter (strLower query) df = []) :
    segmentList df query = [] := by
  simp only [segmentList, h]
  split <;> split <;> simp

theorem filterDim_two_keywords_nil {get : CampaignRecord → String}
    {ks : List String} {q : String} (rows : List CampaignRecord)
    {kw1 kw2 : String} (h1 : kw1 ∈ ks) (h2 : kw2 ∈ ks) (hne : kw1 ≠ kw2)
    (hc1 : strContains q kw1 = true) (hc2 : strContains q kw2 = true) :
    filterDim get ks q rows = [] := by
  rw [List.eq_nil_iff_forall_not_mem]
  intro r hr
  have e1 := filterDim_keyword_eq hr kw1 h1 hc1
  have e2 := filterDim_keyword_eq hr kw2 h2 hc2
  exact hne (e1 ▸ e2)

end PaidMedia

namespace PaidMedia

/-- C1: every record in the Segment returned by the filter satisfies
every predicate derived from the query — case-insensitive equality on
each categorical dimension whose vocabulary keyword occurs as a
substring of the lower-cased query, `roi < 0.2` when the query contains
"low roi", `cost_per_click > 2.0` when it contains "high cpc" — and is
drawn from the full dataset; a query matching no keyword and no trigger
phrase returns the full dataset unchanged. -/
theorem c1_segment_filter_sound (df : List CampaignRecord) (query : String) :
    (∀ r ∈ segmentList df query,
      r ∈ df ∧
      (∀ kw ∈ regionKeywords,
        strContains (strLower query) kw = true → strLower r.region = kw) ∧
      (∀ kw ∈ businessUnitKeywords,
        strContains (strLower query) kw = true →
          strLower r.business_unit = kw) ∧
      (∀ kw ∈ channelKeywords,
        strContains (strLower query) kw = true → strLower r.channel = kw) ∧
      (strContains (strLower query) "low roi" = true → r.roi < 1/5) ∧
      (strContains (strLower query) "high cpc" = true →
        2 < r.cost_per_click)) ∧
    ((∀ kw ∈ regionKeywords ++ businessUnitKeywords ++ channelKeywords,
        strContains (strLower query) kw = false) →
      strContains (strLower query) "low roi" = false →
      strContains (strLower query) "high cpc" = false →
      segmentList df query = df) := by
  constructor
  · intro r hr
    simp only [segmentList, catFilter_eq] at hr
    have hB : r ∈ (if strContains (strLower query) "low roi" then
        List.filter (fun r => decide (r.roi < 1/5))
          (filterDim CampaignRecord.channel channelKeywords (strLower query)
            (filterDim CampaignRecord.business_unit businessUnitKeywords
              (strLower query)
              (filterDim CampaignRecord.region regionKeywords (strLower query)
                df)))
        else
          filterDim CampaignRecord.channel channelKeywords (strLower query)
            (filterDim CampaignRecord.business_unit businessUnitKeywords
              (strLower query)
              (filterDim CampaignRecord.region regionKeywords (strLower query)
                df))) := by
      by_cases hc : strContains (strLower query) "high cpc" = true
      · rw [if_pos hc] at hr
        exact List.mem_of_mem_filter hr
      · rw [if_neg hc] at hr
        exact hr
    have hA : r ∈ filterDim CampaignRecord.channel channelKeywords
        (strLower query)
        (filterDim CampaignRecord.business_unit businessUnitKeywords
          (strLower query)
          (filterDim CampaignRecord.region regionKeywords (strLower query)
            df)) := by
      by_cases hc : strContains (strLower query) "low roi" = true
      · rw [if_pos hc] at hB
        exact List.mem_of_mem_filter hB
      · rw [if_neg hc] at hB
        exact hB
    have hbu := mem_of_mem_filterDim hA
    have hrg := mem_of_mem_filterDim hbu
    have hdf := mem_of_mem_filterDim hrg
    refine ⟨hdf, ?_, ?_, ?_, ?_, ?_⟩
    · exact fun kw hkw hq => filterDim_keyword_eq hrg kw hkw hq
    · exact fun kw hkw hq => filterDim_keyword_eq hbu kw hkw hq
    · exact fun kw hkw hq => filterDim_keyword_eq hA kw hkw hq
    · intro hc
      rw [if_pos hc] at hB
      exact of_decide_eq_true (List.mem_filter.mp hB).2
    · intro hc
      simp only [segmentList, catFilter_eq, if_pos hc] at hr
      exact of_decide_eq_true (List.mem_filter.mp hr).2
  · intro hkw hlow hhigh
    simp only [segmentList, catFilter_eq]
    rw [filterDim_id CampaignRecord.region df
        (fun kw h => hkw kw (by simp [List.mem_append, h]))]
    rw [filterDim_id CampaignRecord.business_unit df
        (fun kw h => hkw kw (by simp [List.mem_append, h]))]
    rw [filterDim_id CampaignRecord.channel df
        (fun kw h => hkw kw (by simp [List.mem_append, h]))]
    simp [hlow, hhigh]

/-- C7: when two distinct keywords of the same categorical dimension
both occur in the lower-cased query, the sequential re-filtering
(intersection) collapses the working set to empty, and the tool returns
the empty-segment sentinel `"[]"`. -/
theorem c7_same_dimension_intersection (df : List CampaignRecord)
    (query : String) (get : CampaignRecord → String) (kws : List String)
    (hdim : (get, kws) ∈ keyword_map) (kw1 kw2 : String)
    (h1 : kw1 ∈ kws) (h2 : kw2 ∈ kws) (hne : kw1 ≠ kw2)
    (hc1 : strContains (strLower query) kw1 = true)
    (hc2 : strContains (strLower query) kw2 = true) :
    segmentList df query = [] ∧ segment_insight df query = "[]" := by
  have hnil : catFilter (strLower query) df = [] := by
    rw [catFilter_eq]
    simp only [keyword_map, List.mem_cons, List.not_mem_nil, or_false] at hdim
    rcases hdim with ⟨rfl, rfl⟩ | ⟨rfl, rfl⟩ | ⟨rfl, rfl⟩
    · rw [filterDim_two_keywords_nil df h1 h2 hne hc1 hc2,
        filterDim_nil, filterDim_nil]
    · rw [filterDim_two_keywords_nil _ h1 h2 hne hc1 hc2, filterDim_nil]
    · rw [filterDim_two_keywords_nil _ h1 h2 hne hc1 hc2]
  have hseg := segmentList_eq_nil_of_catFilter_nil df query hnil
  refine ⟨hseg, ?_⟩
  simp [segment_insight, hseg]

/-- C10: the Segment preserves the relative order of the matching
records in the full dataset (it is a sublist), and every serialized
record exposes exactly the seven fields business_unit, channel, region,
roi, clicks, cost_per_click, cpm, in that order. -/
theorem c10_order_and_fields (df : List CampaignRecord) (query : String) :
    (segmentList df query).Sublist df ∧
    (∀ r : CampaignRecord, (recordFields r).map Prod.fst =
      ["business_unit", "channel", "region", "roi", "clicks",
       "cost_per_click", "cpm"]) := by
  constructor
  · simp only [segmentList, catFilter_eq]
    have hA := (filterDim_sublist CampaignRecord.channel channelKeywords
        (strLower query) _).trans
      ((filterDim_sublist CampaignRecord.business_unit businessUnitKeywords
        (strLower query) _).trans
        (filterDim_sublist CampaignRecord.region regionKeywords
          (strLower query) df))
    refine List.Sublist.trans ?_ hA
    split
    · split
      · exact ((List.filter_sublist _).trans (List.filter_sublist _))
      · exact List.filter_sublist _
    · split
      · exact List.filter_sublist _
      · exact List.Sublist.refl _
  · intro r
    rfl

end PaidMedia

namespace PaidMedia

/-- C2: on an empty segment the analyzer returns the all-empty summary
— empty performer lists, absent average, empty top-features string,
absent projection — without consulting the model: the result is
identical for any two models, so neither `predict` nor the
feature-importance table is ever used; the serialized empty segment
`"[]"` takes this same path. -/
theorem c2_empty_segment_short_circuit (m m2 : Model) (query : String) :
    analyzeList m query [] =
      ⟨[], [], none, "", none⟩ ∧
    analyzeList m query [] = analyzeList m2 query [] ∧
    predictAndExplain m query "[]" =
      Except.ok ⟨[], [], none, "", none⟩ := by
  refine ⟨rfl, rfl, rfl⟩

/-- C3: for a non-empty segment, `average_roi` is the arithmetic mean
of the model's per-record predictions, rounded to 4 decimal places,
where each record's feature vector is exactly `[clicks, cost_per_click,
cpm]` in that fixed order. -/
theorem c3_average_roi (m : Model) (query : String)
    (recs : List CampaignRecord) (hne : recs ≠ []) :
    (analyzeList m query recs).average_roi =
      some (pyRound (listMean (recs.map
        (fun r => m.predict [(r.clicks : ℚ), r.cost_per_click, r.cpm]))) 4) := by
  simp [analyzeList, hne, featureRow]

/-- C4: for a non-empty segment, `high_performers` is exactly the
records with recorded `roi > 2.0` and `low_performers` exactly those
with recorded `roi < 1.0` (classified by the actual `roi` field), no
record lies in both, and each entry is formatted as
`"{business_unit} | {channel} | {region} → ROI: {roi rounded to 2
decimals}"`. -/
theorem c4_performer_partition (m : Model) (query : String)
    (recs : List CampaignRecord) (hne : recs ≠ []) :
    (analyzeList m query recs).high_performers =
      (recs.filter (fun r => decide (2 < r.roi))).map format_campaign ∧
    (analyzeList m query recs).low_performers =
      (recs.filter (fun r => decide (r.roi < 1))).map format_campaign ∧
    (∀ r : CampaignRecord,
      ¬(r ∈ recs.filter (fun r => decide (2 < r.roi)) ∧
        r ∈ recs.filter (fun r => decide (r.roi < 1)))) ∧
    (∀ r : CampaignRecord, format_campaign r =
      r.business_unit ++ " | " ++ r.channel ++ " | " ++ r.region ++
        " → ROI: " ++ repr2 (pyRound r.roi 2)) := by
  refine ⟨by simp [analyzeList, hne], by simp [analyzeList, hne], ?_, fun r => rfl⟩
  rintro r ⟨hhigh, hlow⟩
  have h1 : (2 : ℚ) < r.roi :=
    of_decide_eq_true (List.mem_filter.mp hhigh).2
  have h2 : r.roi < 1 := of_decide_eq_true (List.mem_filter.mp hlow).2
  have : (2 : ℚ) < 1 := h1.trans h2
  norm_num at this

end PaidMedia

namespace PaidMedia

/-- C5 (amended): for a non-empty segment, `projected_roi` is governed
by the first maximal run of digit/comma characters in the query — the
leftmost regex match: absent exactly when there is no such run or the
run carries no digit (so the comma-stripped parse fails), and otherwise
equal to the model's prediction on the synthetic feature vector
`[budget/avg_cpc if avg_cpc > 0 else 1000, avg_cpc, avg_cpm]` rounded
to 4 decimals; the projection step never affects the other summary
fields, which do not depend on the query at all. -/
theorem c5_projection_amended (m : Model) (query : String)
    (recs : List CampaignRecord) (hne : recs ≠ []) :
    (parseBudget query = none →
      (analyzeList m query recs).projected_roi = none) ∧
    (∀ b : ℚ, parseBudget query = some b →
      (analyzeList m query recs).projected_roi =
        some (pyRound (m.predict
          [if 0 < listMean (recs.map (fun r => r.cost_per_click)) then
              b / listMean (recs.map (fun r => r.cost_per_click))
            else 1000,
           listMean (recs.map (fun r => r.cost_per_click)),
           listMean (recs.map (fun r => r.cpm))]) 4)) ∧
    (∀ query2 : String,
      (analyzeList m query2 recs).high_performers =
        (analyzeList m query recs).high_performers ∧
      (analyzeList m query2 recs).low_performers =
        (analyzeList m query recs).low_performers ∧
      (analyzeList m query2 recs).average_roi =
        (analyzeList m query recs).average_roi ∧
      (analyzeList m query2 recs).top_features =
        (analyzeList m query recs).top_features) := by
  refine ⟨?_, ?_, ?_⟩
  · intro h
    simp [analyzeList, hne, projectedRoi, h]
  · intro b hb
    simp [analyzeList, hne, projectedRoi, hb]
  · intro query2
    refine ⟨?_, ?_, ?_, ?_⟩ <;> simp [analyzeList, hne]

/-- C5 (counterexample): the query `", 5"` contains a run of digits and
commas that parses as a number (`"5"`), and the segment's average
cost-per-click is positive, yet `projected_roi` is absent, because the
leftmost regex match is the comma-only run `","` whose comma-stripped
parse fails. -/
theorem c5_counterexample :
    (∃ run : List Char, run ≠ [] ∧ (∀ c ∈ run, isDigitComma c = true) ∧
      (∃ c ∈ run, c.isDigit = true) ∧ run <:+: (", 5").toList) ∧
    0 < listMean ([wRecord].map (fun r => r.cost_per_click)) ∧
    (analyzeList wModel ", 5" [wRecord]).projected_roi = none := by
  exact ⟨⟨['5'], by decide, by decide, ⟨'5', by decide, by decide⟩,
    by decide⟩, by decide, by decide⟩

/-- C6 (amended): `_predict_and_explain` has no handler around the
segment parse, so a malformed segment representation propagates the
parse error instead of degrading to the empty Segment; on any
parseable representation the analysis succeeds and never raises. -/
theorem c6_parse_error_propagates (m : Model) (query s : String) :
    (∀ e : String, parseRecords s = Except.error e →
      predictAndExplain m query s = Except.error e) ∧
    (∀ rs : List CampaignRecord, parseRecords s = Except.ok rs →
      predictAndExplain m query s = Except.ok (analyzeList m query rs)) := by
  constructor
  · intro e h
    simp [predictAndExplain, h, Except.map]
  · intro rs h
    simp [predictAndExplain, h, Except.map]

/-- C6 (counterexample): on the malformed segment representation
`"not json"` the analyzer returns a parse error — it does not degrade
to the empty Segment's all-empty summary. -/
theorem c6_counterexample :
    predictAndExplain wModel "hello" "not json" =
      Except.error "ValueError: unparseable segment representation" ∧
    predictAndExplain wModel "hello" "not json" ≠
      Except.ok ⟨[], [], none, "", none⟩ := by
  exact ⟨by decide, by decide⟩

end PaidMedia

namespace PaidMedia

/-- C8: the delivered strategy text is the generator's text, replaced
by the fixed quota-exhaustion fallback exactly when the text carries a
quota/rate-limit indicator substring, and by the "no strategy
generated" message exactly when the text is empty; the replacement
leaves the previously computed segment and performance fields of the
response untouched. -/
theorem c8_strategy_fallback (s : String) (seg : List CampaignRecord)
    (perf : RoiSummary) :
    (hasQuotaIndicator s = true → fixStrategy s = quotaFallback) ∧
    (hasQuotaIndicator s = false → s = "" →
      fixStrategy s = noStrategyMessage) ∧
    (hasQuotaIndicator s = false → s ≠ "" → fixStrategy s = s) ∧
    (buildResponse seg perf s).segment = seg ∧
    (buildResponse seg perf s).performance = perf := by
  refine ⟨?_, ?_, ?_, rfl, rfl⟩
  · intro h
    simp [fixStrategy, h]
  · intro h he
    subst he
    simp [fixStrategy, h]
  · intro h he
    simp [fixStrategy, h, he]

/-- C9: the compiled pipeline runs the three stages in the fixed order
segment → performance → strategy — each stage consuming the previous
stage's output, so no stage starts before the previous one returns —
and on success the final state holds the query unchanged, the segment
string written by stage 1, the summary written by stage 2 from that
very segment string, and the strategy text written by stage 3 from that
very summary; moreover each node writes only its own field and leaves
the query and every earlier-written field unchanged. -/
theorem c9_pipeline_order_and_frame (df : List CampaignRecord) (m : Model)
    (gen : String → RoiSummary → String) (query : String) :
    (∀ st : FlowState, graphInvoke df m gen query = Except.ok st →
      st.query = query ∧
      st.segment_insight = some (segment_insight df query) ∧
      (∃ p : RoiSummary,
        predictAndExplain m query (segment_insight df query) =
          Except.ok p ∧
        st.performance_analysis = some p ∧
        st.strategy_generator = some (gen query p))) ∧
    (∀ s : FlowState,
      (segmentNode df s).query = s.query ∧
      (segmentNode df s).performance_analysis = s.performance_analysis ∧
      (segmentNode df s).strategy_generator = s.strategy_generator) ∧
    (∀ s t : FlowState, performanceNode m s = Except.ok t →
      t.query = s.query ∧ t.segment_insight = s.segment_insight ∧
      t.strategy_generator = s.strategy_generator) ∧
    (∀ s t : FlowState, strategyNode gen s = Except.ok t →
      t.query = s.query ∧ t.segment_insight = s.segment_insight ∧
      t.performance_analysis = s.performance_analysis) := by
  refine ⟨?_, ?_, ?_, ?_⟩
  · intro st h
    simp only [graphInvoke, segmentNode, performanceNode, bind,
      Except.bind] at h
    cases heq : predictAndExplain m query (segment_insight df query) with
    | error e =>
      rw [heq] at h
      simp [Except.map] at h
    | ok p =>
      rw [heq] at h
      simp only [Except.map, strategyNode] at h
      injection h with h2
      subst h2
      exact ⟨rfl, rfl, p, rfl, rfl, rfl⟩
  · intro s
    exact ⟨rfl, rfl, rfl⟩
  · intro s t h
    cases hseg : s.segment_insight with
    | none =>
      simp [performanceNode, hseg] at h
    | some segStr =>
      simp only [performanceNode, hseg] at h
      cases hp : predictAndExplain m s.query segStr with
      | error e =>
        rw [hp] at h
        simp [Except.map] at h
      | ok p =>
        rw [hp] at h
        simp only [Except.map] at h
        injection h with h2
        subst h2
        exact ⟨rfl, rfl, rfl⟩
  · intro s t h
    cases hp : s.performance_analysis with
    | none =>
      simp [strategyNode, hp] at h
    | some p =>
      simp only [strategyNode, hp] at h
      injection h with h2
      subst h2
      exact ⟨rfl, rfl, rfl⟩

end PaidMedia

namespace PaidMedia

/-- Witness for C1: on the query "asia low roi" the surviving record
is in the dataset, matches the asia keyword, and has roi below 0.2; on
the keyword-free query "hello" the filter returns the dataset. -/
theorem c1_segment_filter_sound_witness :
    wRecordLow ∈ [wRecord, wRecordLow] ∧
    strLower wRecordLow.region = "asia" ∧
    wRecordLow.roi < 1/5 ∧
    segmentList [wRecord, wRecordLow] "hello" = [wRecord, wRecordLow] :=
  ⟨((c1_segment_filter_sound [wRecord, wRecordLow] "asia low roi").1
      wRecordLow (by decide)).1,
   ((c1_segment_filter_sound [wRecord, wRecordLow] "asia low roi").1
      wRecordLow (by decide)).2.1 "asia" (by decide) (by decide),
   ((c1_segment_filter_sound [wRecord, wRecordLow] "asia low roi").1
      wRecordLow (by decide)).2.2.2.2.1 (by decide),
   (c1_segment_filter_sound [wRecord, wRecordLow] "hello").2
     (by decide) (by decide) (by decide)⟩

/-- Witness for C2 at a concrete model pair and query. -/
theorem c2_empty_segment_short_circuit_witness :
    analyzeList wModel "q" [] = ⟨[], [], none, "", none⟩ ∧
    analyzeList wModel "q" [] = analyzeList wModel2 "q" [] :=
  ⟨(c2_empty_segment_short_circuit wModel wModel2 "q").1,
   (c2_empty_segment_short_circuit wModel wModel2 "q").2.1⟩

/-- Witness for C3 on a one-record segment. -/
theorem c3_average_roi_witness :
    (analyzeList wModel "q" [wRecord]).average_roi =
      some (pyRound (listMean ([wRecord].map
        (fun r => wModel.predict
          [(r.clicks : ℚ), r.cost_per_click, r.cpm]))) 4) :=
  c3_average_roi wModel "q" [wRecord] (by decide)

/-- Witness for C4 on a two-record segment holding one high and one
low performer. -/
theorem c4_performer_partition_witness :
    (analyzeList wModel "q" [wRecord, wRecordLow]).high_performers =
      ([wRecord, wRecordLow].filter
        (fun r => decide (2 < r.roi))).map format_campaign ∧
    (analyzeList wModel "q" [wRecord, wRecordLow]).low_performers =
      ([wRecord, wRecordLow].filter
        (fun r => decide (r.roi < 1))).map format_campaign ∧
    ¬(wRecord ∈ [wRecord, wRecordLow].filter
        (fun r => decide (2 < r.roi)) ∧
      wRecord ∈ [wRecord, wRecordLow].filter
        (fun r => decide (r.roi < 1))) :=
  ⟨(c4_performer_partition wModel "q" [wRecord, wRecordLow] (by decide)).1,
   (c4_performer_partition wModel "q" [wRecord, wRecordLow] (by decide)).2.1,
   (c4_performer_partition wModel "q" [wRecord, wRecordLow]
      (by decide)).2.2.1 wRecord⟩

/-- Witness for C5 (amended): a comma-first query leaves the
projection absent; a well-formed budget query produces the synthetic
prediction. -/
theorem c5_projection_amended_witness :
    (analyzeList wModel ", 5" [wRecord]).projected_roi = none ∧
    (analyzeList wModel "spend $20,000" [wRecord]).projected_roi =
      some (pyRound (wModel.predict
        [if 0 < listMean ([wRecord].map (fun r => r.cost_per_click)) then
            20000 / listMean ([wRecord].map (fun r => r.cost_per_click))
          else 1000,
         listMean ([wRecord].map (fun r => r.cost_per_click)),
         listMean ([wRecord].map (fun r => r.cpm))]) 4) :=
  ⟨(c5_projection_amended wModel ", 5" [wRecord] (by decide)).1 (by decide),
   (c5_projection_amended wModel "spend $20,000" [wRecord] (by decide)).2.1
     20000 (by decide)⟩

/-- Witness for C6 (amended): the error path on "not json" and the
success path on the serialized empty segment. -/
theorem c6_parse_error_propagates_witness :
    predictAndExplain wModel "q" "not json" =
      Except.error "ValueError: unparseable segment representation" ∧
    predictAndExplain wModel "q" "[]" =
      Except.ok (analyzeList wModel "q" []) :=
  ⟨(c6_parse_error_propagates wModel "q" "not json").1
      "ValueError: unparseable segment representation" (by decide),
   (c6_parse_error_propagates wModel "q" "[]").2 [] (by decide)⟩

/-- Witness for C7: "europe" and "asia" both occur in the query, so
the filter collapses to the sentinel. -/
theorem c7_same_dimension_intersection_witness :
    segmentList [wRecord, wRecordLow] "europe and asia" = [] ∧
    segment_insight [wRecord, wRecordLow] "europe and asia" = "[]" :=
  c7_same_dimension_intersection [wRecord, wRecordLow] "europe and asia"
    CampaignRecord.region regionKeywords (List.Mem.head _)
    "europe" "asia" (by decide) (by decide) (by decide) (by decide)
    (by decide)

/-- Witness for C8 at the three branches of the post-processing. -/
theorem c8_strategy_fallback_witness :
    fixStrategy "token_quota_reached" = quotaFallback ∧
    fixStrategy "" = noStrategyMessage ∧
    fixStrategy "use more video" = "use more video" ∧
    (buildResponse [wRecord] ⟨[], [], none, "", none⟩ "x").segment =
      [wRecord] :=
  ⟨(c8_strategy_fallback "token_quota_reached" []
      ⟨[], [], none, "", none⟩).1 (by decide),
   (c8_strategy_fallback "" [] ⟨[], [], none, "", none⟩).2.1
      (by decide) rfl,
   (c8_strategy_fallback "use more video" []
      ⟨[], [], none, "", none⟩).2.2.1 (by decide) (by decide),
   (c8_strategy_fallback "x" [wRecord]
      ⟨[], [], none, "", none⟩).2.2.2.1⟩

/-- Witness for C9: the concrete pipeline run reaches the expected
final state, with the stage outputs threaded in order. -/
theorem c9_pipeline_order_and_frame_witness :
    wSt.query = "europe" ∧
    wSt.segment_insight = some (segment_insight [wRecord] "europe") ∧
    (∃ p : RoiSummary,
      predictAndExplain wModel "europe" (segment_insight [wRecord] "europe") =
        Except.ok p ∧
      wSt.performance_analysis = some p ∧
      wSt.strategy_generator = some (wGen "europe" p)) :=
  (c9_pipeline_order_and_frame [wRecord] wModel wGen "europe").1 wSt
    (by decide)

/-- Witness for C10 on a concrete dataset and query. -/
theorem c10_order_and_fields_witness :
    (segmentList [wRecord, wRecordLow] "europe").Sublist
      [wRecord, wRecordLow] ∧
    (recordFields wRecord).map Prod.fst =
      ["business_unit", "channel", "region", "roi", "clicks",
       "cost_per_click", "cpm"] :=
  ⟨(c10_order_and_fields [wRecord, wRecordLow] "europe").1,
   (c10_order_and_fields [wRecord, wRecordLow] "europe").2 wRecord⟩

end PaidMedia
